import Mathlib

/-!
A shallow embedding of the paper-review workflow (corpus ingestion, heuristic
scoring, ranking/refinement, unified LLM scoring, caching) together with
theorems settling the stated claims about it.

Numeric values carried as Python floats in the original are modelled as
rationals; external effects (OpenReview API, LLM calls, the filesystem) are
modelled as explicit oracle parameters or outcome values threaded through the
otherwise pure translation of each function.
-/

namespace PaperReview

/-- Contiguous-infix test on character lists. -/
def charsInfix (needle : List Char) : List Char → Bool
  | [] => needle.isEmpty
  | c :: rest => needle.isPrefixOf (c :: rest) || charsInfix needle rest

/-- Substring test, modelling the Python expression needle in haystack. -/
def strContains (hay needle : String) : Bool :=
  charsInfix needle.data hay.data

/-- Python str.lower() (ASCII case folding, as all compared terms here are
ASCII). -/
def pyLower (s : String) : String :=
  ⟨s.data.map Char.toLower⟩

/-- Python str.strip(): drop leading and trailing whitespace. -/
def pyStrip (s : String) : String :=
  ⟨((s.data.dropWhile Char.isWhitespace).reverse.dropWhile Char.isWhitespace).reverse⟩

/-- Python s.lower().strip() applied to a keyword. -/
def normKw (s : String) : String :=
  pyStrip (pyLower s)

/-! ## constants.py -/

def MIN_SCORE : ℚ := 0
def MAX_SCORE : ℚ := 1
def NEURIPS_RATING_SCALE : ℚ := 10
def RELEVANCE_KEYWORD_WEIGHT : ℚ := 7/10
def RELEVANCE_TEXT_WEIGHT : ℚ := 2/10
def RELEVANCE_COVERAGE_WEIGHT : ℚ := 1/10

/-! ## models/state.py -/

/-- A review is the dynamic field-name-to-string map built by the fetcher
(models/state.py stores it as a dict). -/
abbrev Review : Type := List (String × String)

/-- Look a field up in a review, modelling review.get(field, default). -/
def Review.getD (r : Review) (field dflt : String) : String :=
  match List.find? (fun kv => kv.1 == field) r with
  | some kv => kv.2
  | none => dflt

/-- models/state.py Paper (the fields the scoring and ranking logic reads). -/
structure Paper where
  id : String
  title : String
  authors : List String
  abstract : String
  keywords : List String
  reviews : List Review
  rating_avg : Option ℚ
  confidence_avg : Option ℚ
  decision : Option String
  decision_comment : Option String
deriving Repr, DecidableEq

/-- models/state.py EvaluatedPaper: a Paper extended with scores and
narrative fields. -/
structure EvaluatedPaper where
  id : String
  title : String
  authors : List String
  abstract : String
  keywords : List String
  reviews : List Review
  rating_avg : Option ℚ
  confidence_avg : Option ℚ
  decision : Option String
  decision_comment : Option String
  relevance_score : Option ℚ := none
  novelty_score : Option ℚ := none
  impact_score : Option ℚ := none
  practicality_score : Option ℚ := none
  overall_score : Option ℚ := none
  review_summary : Option String := none
  field_insights : Option String := none
  ai_rationale : Option String := none
  evaluation_rationale : String := ""
  rank : Option Nat := none
deriving Repr, DecidableEq

/-- models/state.py EvaluationCriteria (the fields read by the nodes
embedded here). -/
structure EvaluationCriteria where
  research_description : Option String := none
  research_interests : List String := []
  min_relevance_score : ℚ := 1/2
  min_rating : Option ℚ := none
  top_k_papers : Option Nat := none
  enable_preliminary_llm_filter : Bool := false
  preliminary_llm_filter_count : Nat := 500
deriving Repr, DecidableEq

/-! ## config.py -/

/-- config.py ScoringWeights, the validated dataclass. -/
structure ScoringWeights where
  openreview_weight : ℚ := 4/10
  llm_weight : ℚ := 6/10
  relevance_weight : ℚ := 4/10
  novelty_weight : ℚ := 3/10
  impact_weight : ℚ := 3/10
deriving Repr, DecidableEq

/-- ScoringWeights.__post_init__: dataclass construction runs the two sum
checks and raises (modelled as Except.error) when either fails. -/
def mkScoringWeights (ow lw rw nw iw : ℚ) : Except String ScoringWeights :=
  let total_integration := ow + lw
  if |total_integration - 1| > 1/100 then
    .error "openreview_weight + llm_weight must equal 1.0"
  else
    let total_openreview := rw + nw + iw
    if |total_openreview - 1| > 1/100 then
      .error "relevance_weight + novelty_weight + impact_weight must equal 1.0"
    else
      .ok ⟨ow, lw, rw, nw, iw⟩

def DEFAULT_SCORING_WEIGHTS : ScoringWeights := {}

/-! ## A JSON value, the result of json.loads on an adapter response. -/

inductive Json where
  | null
  | bool (b : Bool)
  | num (q : ℚ)
  | str (s : String)
  | arr (xs : List Json)
  | obj (fields : List (String × Json))
deriving Repr

/-- Python truthiness of a parsed JSON value. -/
def Json.truthy : Json → Bool
  | .null => false
  | .bool b => b
  | .num q => q ≠ 0
  | .str s => s ≠ ""
  | .arr xs => !xs.isEmpty
  | .obj fields => !fields.isEmpty

/-- dict.get(key, default) on a parsed JSON object field list (last
assignment wins, as in a Python dict). -/
def Json.getD (fields : List (String × Json)) (key : String) (dflt : Json) : Json :=
  match fields.reverse.find? (fun kv => kv.1 == key) with
  | some kv => kv.2
  | none => dflt

/-! ## evaluate_papers_node.py -/

/-- The synonym dictionary dict[str, list[str]]: keyword to related terms. -/
abbrev SynDict := List (String × List String)

/-- Python dict lookup (key in d / d[key]). -/
def SynDict.find? (d : SynDict) (k : String) : Option (List String) :=
  (List.find? (fun kv => kv.1 == k) d).map (fun kv => kv.2)

/-- Python dict assignment d[k] = v: replace in place or append. -/
def SynDict.insert (d : SynDict) (k : String) (v : List String) : SynDict :=
  if d.any (fun kv => kv.1 == k) then
    d.map (fun kv => if kv.1 == k then (k, v) else kv)
  else
    d ++ [(k, v)]

/-- min(max(x, MIN_SCORE), MAX_SCORE), the clamp used by the scoring code. -/
def clamp01 (x : ℚ) : ℚ := min (max x MIN_SCORE) MAX_SCORE

/-- The metadata dict assembled in EvaluatePapersNode.__call__ (either from
the paper record itself or from the parsed fetch_paper_metadata JSON).
decision is None when the paper carried no decision. -/
structure Metadata where
  reviews : List Review
  rating_avg : Option ℚ
  confidence_avg : Option ℚ
  decision : Option String
deriving Repr, DecidableEq

/-- The quadruple returned by EvaluatePapersNode._calculate_scores. -/
structure Scores where
  relevance : ℚ
  novelty : ℚ
  impact : ℚ
  overall : ℚ
deriving Repr, DecidableEq

/-- The per-group match flags computed inside the loop of
EvaluatePapersNode._calculate_relevance_score: the group of terms for one
research interest (the lower-cased interest plus its synonyms). -/
def groupKeywords (interest : String) (synonyms : SynDict) : List String :=
  let interest_lower := normKw interest
  match synonyms.find? interest_lower with
  | some syns => interest_lower :: syns.map normKw
  | none => [interest_lower]

/-- Whether a group matches the paper keyword list (case-normalized set
intersection, group_keywords and paper_keywords). -/
def groupKeywordMatch (interest : String) (synonyms : SynDict) (paperKws : List String) : Bool :=
  (groupKeywords interest synonyms).any (fun kw => paperKws.contains kw)

/-- Whether a group matches the title+abstract text (substring match of any
group term). -/
def groupTextMatch (interest : String) (synonyms : SynDict) (paperText : String) : Bool :=
  (groupKeywords interest synonyms).any (fun kw => strContains paperText kw)

/-- One iteration of the matching loop of _calculate_relevance_score over
the accumulator (matched_groups, matched_in_paper_keywords,
matched_in_text_only): a matching group counts once, toward the keyword
term when the keyword list matches, else toward the text-only term. -/
def relevanceStep (synonyms : SynDict) (paperKws : List String) (paperText : String)
    (acc : Nat × Nat × Nat) (interest : String) : Nat × Nat × Nat :=
  let has_keyword_match := groupKeywordMatch interest synonyms paperKws
  let has_text_match := groupTextMatch interest synonyms paperText
  if has_keyword_match || has_text_match then
    ( acc.1 + 1,
      (if has_keyword_match then acc.2.1 + 1 else acc.2.1),
      (if has_keyword_match then acc.2.2 else acc.2.2 + 1) )
  else acc

/-- The (matched_groups, matched_in_paper_keywords, matched_in_text_only)
counting loop of _calculate_relevance_score. -/
def relevanceCounts (interests : List String) (synonyms : SynDict)
    (paperKws : List String) (paperText : String) : Nat × Nat × Nat :=
  interests.foldl (relevanceStep synonyms paperKws paperText) (0, 0, 0)

/-- EvaluatePapersNode._calculate_relevance_score. The synonym dictionary is
the one produced (and memoized) by _generate_synonyms for
criteria.research_interests; the embedding receives it as an argument. -/
def calculateRelevanceScore (paper : Paper) (criteria : EvaluationCriteria)
    (synonyms : SynDict) : ℚ :=
  let research_interests := criteria.research_interests
  if research_interests.isEmpty then 1/2
  else
    let paper_keywords := paper.keywords.map normKw
    let paper_text := pyLower (paper.title ++ " " ++ paper.abstract)
    let counts := relevanceCounts research_interests synonyms paper_keywords paper_text
    let matched_groups := counts.1
    let matched_in_paper_keywords := counts.2.1
    let matched_in_text_only := counts.2.2
    let num_groups : ℚ := research_interests.length
    let keyword_weight_per_group := if 0 < research_interests.length then RELEVANCE_KEYWORD_WEIGHT / num_groups else 0
    let text_weight_per_group := if 0 < research_interests.length then RELEVANCE_TEXT_WEIGHT / num_groups else 0
    let coverage_weight := RELEVANCE_COVERAGE_WEIGHT
    let keyword_match_score := (matched_in_paper_keywords : ℚ) * keyword_weight_per_group
    let text_match_score := (matched_in_text_only : ℚ) * text_weight_per_group
    let coverage_score := ((matched_groups : ℚ) / num_groups) * coverage_weight
    let total_score := keyword_match_score + text_match_score + coverage_score
    min MAX_SCORE total_score

/-- The positive novelty terms scanned by _estimate_novelty_from_reviews. -/
def positive_keywords : List String :=
  ["novel", "new approach", "innovative", "original", "first",
   "groundbreaking", "pioneering", "unique", "creative", "fresh"]

/-- The negative novelty terms scanned by _estimate_novelty_from_reviews. -/
def negative_keywords : List String :=
  ["not novel", "incremental", "limited novelty", "similar to",
   "existing work", "well-known", "standard approach"]

/-- EvaluatePapersNode._estimate_novelty_from_reviews. -/
def estimateNoveltyFromReviews (metadata : Metadata) (normalized_rating : ℚ) : ℚ :=
  let reviews := metadata.reviews
  if reviews.isEmpty then normalized_rating
  else
    let totals := reviews.foldl
      (fun (acc : Nat × Nat) review =>
        let strengths := pyLower (review.getD "strengths" "")
        let weaknesses := pyLower (review.getD "weaknesses" "")
        let summary := pyLower (review.getD "summary" "")
        let review_text := strengths ++ " " ++ weaknesses ++ " " ++ summary
        let pos := positive_keywords.foldl
          (fun p kw =>
            if strContains review_text kw then
              (if strContains strengths kw then p + 2 else p + 1)
            else p) acc.1
        let neg := negative_keywords.foldl
          (fun n kw =>
            if strContains review_text kw then
              (if strContains weaknesses kw then n + 2 else n + 1)
            else n) acc.2
        (pos, neg))
      (0, 0)
    let positive_score := totals.1
    let negative_score := totals.2
    let novelty_score :=
      if 0 < positive_score ∨ 0 < negative_score then
        let keyword_score : ℚ := (positive_score : ℚ) / ((positive_score : ℚ) + (negative_score : ℚ) + 1)
        keyword_score * (1/2) + normalized_rating * (1/2)
      else normalized_rating
    min MAX_SCORE (max MIN_SCORE novelty_score)

/-- EvaluatePapersNode._calculate_impact_score. The decision text comes from
metadata.get("decision", ""); when the stored value is None the Python
attribute access .lower() raises, modelled by the error case. -/
def calculateImpactScore (metadata : Metadata) (normalized_rating : ℚ) : Except String ℚ :=
  match metadata.decision with
  | none => .error "AttributeError: NoneType object has no attribute lower"
  | some d =>
    let decision := pyLower d
    let decision_score : ℚ :=
      if strContains decision "oral" || strContains decision "spotlight" then 1
      else if strContains decision "accept" then 7/10
      else if strContains decision "reject" then 2/10
      else 1/2
    let confidence_score : ℚ :=
      match metadata.confidence_avg with
      | some c => if c ≠ 0 then c / 5 else 1/2
      | none => 1/2
    let impact := decision_score * (5/10) + normalized_rating * (3/10) + confidence_score * (2/10)
    .ok (min MAX_SCORE (max MIN_SCORE impact))

/-- EvaluatePapersNode._calculate_scores. -/
def calculateScores (paper : Paper) (metadata : Metadata) (weights : ScoringWeights)
    (criteria : EvaluationCriteria) (synonyms : SynDict) : Except String Scores :=
  match metadata.rating_avg with
  | none =>
    let relevance := calculateRelevanceScore paper criteria synonyms
    .ok ⟨relevance, 1/2, 1/2, relevance * (7/10) + 3/10⟩
  | some rating_avg =>
    let normalized_rating := rating_avg / NEURIPS_RATING_SCALE
    let relevance_score := calculateRelevanceScore paper criteria synonyms
    let novelty_score := estimateNoveltyFromReviews metadata normalized_rating
    match calculateImpactScore metadata normalized_rating with
    | .error e => .error e
    | .ok impact_score =>
      let overall_score :=
        relevance_score * weights.relevance_weight +
        novelty_score * weights.novelty_weight +
        impact_score * weights.impact_weight
      .ok ⟨clamp01 relevance_score, clamp01 novelty_score,
           clamp01 impact_score, clamp01 overall_score⟩

/-- EvaluatePapersNode._generate_rationale, the narrative summary attached to
a successfully scored paper. Python float formatting (:.2f and friends) is
abstracted by the canonical rational rendering; no claim reads this text. -/
def generateRationale (metadata : Metadata) (s : Scores) : String :=
  let num_reviews := metadata.reviews.length
  let base :=
    if 0 < num_reviews then
      "この論文は" ++ toString num_reviews ++ "件のレビューを受け、" ++
        (match metadata.rating_avg with
         | some r => "平均" ++ toString r ++ "/10の評価を獲得しました。"
         | none => "評価スコアは未公開です。")
    else "この論文はまだレビューを受けていません。"
  let decision := (metadata.decision.getD "N/A")
  let dl := pyLower decision
  let decision_part :=
    if strContains dl "oral" || strContains dl "spotlight" then
      " 採択判定は「" ++ decision ++ "」で、特に高く評価されています。"
    else if strContains dl "accept" then " 採択判定は「" ++ decision ++ "」です。"
    else if strContains dl "reject" then " 不採択（" ++ decision ++ "）となりました。"
    else if decision ≠ "N/A" then " 判定状況：" ++ decision
    else ""
  base ++ decision_part ++ " \n\n【評価スコアの詳細】 総合スコア：" ++ toString s.overall ++
    " （内訳：関連性 " ++ toString s.relevance ++ "、 新規性 " ++ toString s.novelty ++
    "、 インパクト " ++ toString s.impact ++ "）"

/-- The outcome of the per-paper metadata retrieval in
EvaluatePapersNode.__call__ (tool.invoke plus json.loads). -/
inductive MetadataFetch where
  | ok (m : Metadata)
  | errorField (msg : String)
  | raised (msg : String)

/-- The EvaluatedPaper built from a Paper with every score field still at its
default. -/
def EvaluatedPaper.ofPaper (p : Paper) : EvaluatedPaper :=
  { id := p.id, title := p.title, authors := p.authors, abstract := p.abstract,
    keywords := p.keywords, reviews := p.reviews, rating_avg := p.rating_avg,
    confidence_avg := p.confidence_avg, decision := p.decision,
    decision_comment := p.decision_comment }

/-- The except-branch paper of EvaluatePapersNode.__call__: score 0 and an
error rationale instead of being dropped. -/
def errorEvaluatedPaper (p : Paper) (e : String) : EvaluatedPaper :=
  { EvaluatedPaper.ofPaper p with
    overall_score := some 0,
    evaluation_rationale := "評価エラー: " ++ e }

/-- The metadata-fetch-failed paper of EvaluatePapersNode.__call__. -/
def noMetadataEvaluatedPaper (p : Paper) : EvaluatedPaper :=
  { EvaluatedPaper.ofPaper p with
    relevance_score := none, novelty_score := none, impact_score := none,
    overall_score := some 0,
    evaluation_rationale := "メタデータ取得失敗" }

/-- The EvaluatedPaper built after a successful (or raising) score
computation in EvaluatePapersNode.__call__. -/
def scoredEvaluatedPaper (weights : ScoringWeights) (criteria : EvaluationCriteria)
    (synonyms : SynDict) (paper : Paper) (m : Metadata) : EvaluatedPaper :=
  match calculateScores paper m weights criteria synonyms with
  | .ok s =>
    { EvaluatedPaper.ofPaper paper with
      relevance_score := some s.relevance,
      novelty_score := some s.novelty,
      impact_score := some s.impact,
      overall_score := some s.overall,
      evaluation_rationale := generateRationale m s }
  | .error e => errorEvaluatedPaper paper e

/-- One iteration of the loop in EvaluatePapersNode.__call__. -/
def evaluatePaperStep (weights : ScoringWeights) (criteria : EvaluationCriteria)
    (synonyms : SynDict) (fetch : Paper → MetadataFetch) (paper : Paper) : EvaluatedPaper :=
  if !paper.reviews.isEmpty ∧ paper.rating_avg.isSome then
    scoredEvaluatedPaper weights criteria synonyms paper
      ⟨paper.reviews, paper.rating_avg, paper.confidence_avg, paper.decision⟩
  else
    match fetch paper with
    | .errorField _ => noMetadataEvaluatedPaper paper
    | .raised e => errorEvaluatedPaper paper e
    | .ok m => scoredEvaluatedPaper weights criteria synonyms paper m

/-- The evaluated_papers accumulation loop of EvaluatePapersNode.__call__. -/
def evaluatePapersLoop (weights : ScoringWeights) (criteria : EvaluationCriteria)
    (synonyms : SynDict) (fetch : Paper → MetadataFetch) : List Paper → List EvaluatedPaper
  | [] => []
  | p :: rest =>
    evaluatePaperStep weights criteria synonyms fetch p ::
      evaluatePapersLoop weights criteria synonyms fetch rest

/-! ### _generate_synonyms and its per-run memoization -/

/-- The node-level synonym cache (self._synonyms_cache) together with a
count of LLM invocations, used to state the memoization claim. -/
structure SynCache where
  cache : List (String × SynDict) := []
  llmCalls : Nat := 0

/-- Cache lookup (cache_key in self._synonyms_cache). -/
def SynCache.lookup (st : SynCache) (key : String) : Option SynDict :=
  (List.find? (fun kv => kv.1 == key) st.cache).map (fun kv => kv.2)

/-- The list comprehension [s.lower().strip() for s in syn_list if s]; the
error case models the AttributeError raised on a truthy non-string element
(caught by the surrounding except, which then stores an empty list). -/
def processSynList : List Json → Option (List String)
  | [] => some []
  | x :: rest =>
    if x.truthy then
      match x with
      | .str s => (processSynList rest).map (fun r => normKw s :: r)
      | _ => none
    else processSynList rest

/-- The per-keyword body of the loop in _generate_synonyms: one llm.invoke
whose response (after code-fence stripping and json.loads) is the given
outcome; every failure is caught and stored as an empty list. -/
def synonymsForKeyword (outcome : Except String Json) : List String :=
  match outcome with
  | .ok (.arr xs) => (processSynList xs).getD []
  | .ok _ => []
  | .error _ => []

/-- The memoization key of _generate_synonyms: the sorted keyword list
joined by a comma. -/
def sortedCacheKey (research_interests : List String) : String :=
  String.intercalate "," (research_interests.insertionSort (· ≤ ·))

/-- EvaluatePapersNode._generate_synonyms: memoized per sorted keyword set
(cache key = sorted keyword list joined by a comma); on a miss, one LLM call
per keyword. -/
def generateSynonyms (oracle : String → Except String Json)
    (research_interests : List String) (st : SynCache) : SynDict × SynCache :=
  let cache_key := sortedCacheKey research_interests
  match st.lookup cache_key with
  | some cached => (cached, st)
  | none =>
    let step := fun (acc : SynDict × Nat) (keyword : String) =>
      let keyword_lower := normKw keyword
      (acc.1.insert keyword_lower (synonymsForKeyword (oracle keyword)), acc.2 + 1)
    let result := research_interests.foldl step ([], 0)
    (result.1, ⟨st.cache ++ [(cache_key, result.1)], st.llmCalls + result.2⟩)

/-- EvaluatePapersNode.__call__: generate synonyms once (when interests are
supplied), then evaluate every paper in order. Returns the evaluated list,
the synonym dictionary placed in the state update, and the new cache. -/
def evaluatePapersNode (weights : ScoringWeights) (criteria : EvaluationCriteria)
    (fetch : Paper → MetadataFetch) (synOracle : String → Except String Json)
    (st : SynCache) (papers : List Paper) : List EvaluatedPaper × SynDict × SynCache :=
  let syn :=
    if !criteria.research_interests.isEmpty then
      generateSynonyms synOracle criteria.research_interests st
    else ([], st)
  (evaluatePapersLoop weights criteria syn.1 fetch papers, syn.1, syn.2)

/-! ## rank_papers_node.py -/

/-- RankPapersNode._meets_criteria: the relevance threshold applies only when
relevance_score is set; the rating threshold only when both min_rating and
rating_avg are set. -/
def meetsCriteria (paper : EvaluatedPaper) (criteria : EvaluationCriteria) : Bool :=
  let relevanceOk :=
    match paper.relevance_score with
    | some r => !(r < criteria.min_relevance_score)
    | none => true
  let ratingOk :=
    match criteria.min_rating, paper.rating_avg with
    | some mr, some ra => !(ra < mr)
    | _, _ => true
  relevanceOk && ratingOk

/-- Value of a digit string. -/
def digitsToNat (ds : List Char) : Nat :=
  ds.foldl (fun n c => 10 * n + (c.toNat - '0'.toNat)) 0

/-- Value of the matched float token: integer digits plus fractional digits. -/
def floatTokenVal (intPart fracPart : List Char) : ℚ :=
  (digitsToNat intPart : ℚ) + (digitsToNat fracPart : ℚ) / ((10 : ℚ) ^ fracPart.length)

/-- The leftmost match of the Python pattern (one or more digits, an optional
dot, then any digits) used by RankPapersNode._evaluate_relevance_with_llm.
Returns the integer and fractional digit runs of the match. -/
def findFirstFloatToken : List Char → Option (List Char × List Char)
  | [] => none
  | c :: rest =>
    if c.isDigit then
      let ds := (c :: rest).takeWhile Char.isDigit
      match (c :: rest).dropWhile Char.isDigit with
      | '.' :: r2 => some (ds, r2.takeWhile Char.isDigit)
      | _ => some (ds, [])
    else findFirstFloatToken rest

/-- The outcome of one llm.invoke in the preliminary pass. -/
inductive LlmCall where
  | response (text : String)
  | raised (msg : String)

/-- The fallback expression paper.relevance_score or 0.5: Python or takes
the left operand only when it is truthy, so a prior relevance that is None
or the falsy 0.0 both fall back to 0.5. -/
def relevanceOrHalf (o : Option ℚ) : ℚ :=
  match o with
  | some x => if x = 0 then 1/2 else x
  | none => 1/2

/-- RankPapersNode._evaluate_relevance_with_llm: parse the first float token
of the stripped response and clamp it to [0,1]; on a failed parse or a raised
call, fall back to the prior relevance_score or 0.5 (Python or, so a prior
of exactly 0.0 also yields 0.5). -/
def evaluateRelevanceWithLlm (paper : EvaluatedPaper) (call : LlmCall) : ℚ :=
  match call with
  | .raised _ => relevanceOrHalf paper.relevance_score
  | .response text =>
    match findFirstFloatToken (pyStrip text).data with
    | some tok => max 0 (min 1 (floatTokenVal tok.1 tok.2))
    | none => relevanceOrHalf paper.relevance_score

/-- The per-paper update in RankPapersNode._apply_preliminary_llm_filter:
set the new relevance and shift overall_score by the relevance difference
times the hard-coded factor 0.4 (the source comment reads
relevance_weight=0.4); no clamp is applied to overall_score here. -/
def updatePreliminaryPaper (call : LlmCall) (paper : EvaluatedPaper) : EvaluatedPaper :=
  let llm_relevance := evaluateRelevanceWithLlm paper call
  let old_score := paper.relevance_score.getD 0
  let score_diff := llm_relevance - old_score
  { paper with
    relevance_score := some llm_relevance,
    overall_score := some (paper.overall_score.getD 0 + score_diff * (4/10)) }

/-- Descending comparison on overall_score or 0.0, the sort key
lambda p: p.overall_score or 0.0 with reverse=True. -/
def overallGE (p q : EvaluatedPaper) : Prop :=
  q.overall_score.getD 0 ≤ p.overall_score.getD 0

instance : DecidableRel overallGE := fun p q =>
  inferInstanceAs (Decidable (q.overall_score.getD 0 ≤ p.overall_score.getD 0))

instance : IsTotal EvaluatedPaper overallGE :=
  ⟨fun p q => le_total (q.overall_score.getD 0) (p.overall_score.getD 0)⟩

instance : IsTrans EvaluatedPaper overallGE :=
  ⟨fun _ _ _ h h' => le_trans h' h⟩

/-- Stable descending sort by overall score, modelling Python sorted with
reverse=True. -/
def sortByOverallDesc (l : List EvaluatedPaper) : List EvaluatedPaper :=
  l.insertionSort overallGE

/-- RankPapersNode._apply_preliminary_llm_filter: re-score the top
filter_count candidates with one LLM query each, keep the rest untouched,
then re-sort everything by the updated overall score. -/
def applyPreliminaryLlmFilter (oracle : EvaluatedPaper → LlmCall)
    (ranked_papers : List EvaluatedPaper) (criteria : EvaluationCriteria) :
    List EvaluatedPaper :=
  let filter_count := min criteria.preliminary_llm_filter_count ranked_papers.length
  let updated_papers :=
    (ranked_papers.take filter_count).map (fun p => updatePreliminaryPaper (oracle p) p)
  let remaining_papers := ranked_papers.drop filter_count
  sortByOverallDesc (updated_papers ++ remaining_papers)

/-- RankPapersNode.__call__, up to the ranked_papers it passes downstream:
filter by criteria, sort descending, optional preliminary LLM pass, top-k
truncation. -/
def rankPapersNode (oracle : EvaluatedPaper → LlmCall) (criteria : EvaluationCriteria)
    (evaluated_papers : List EvaluatedPaper) : List EvaluatedPaper :=
  let filtered_papers := evaluated_papers.filter (fun p => meetsCriteria p criteria)
  let ranked_papers := sortByOverallDesc filtered_papers
  let ranked_papers :=
    if criteria.enable_preliminary_llm_filter ∧ 0 < ranked_papers.length then
      applyPreliminaryLlmFilter oracle ranked_papers criteria
    else ranked_papers
  match criteria.top_k_papers with
  | some k => ranked_papers.take k
  | none => ranked_papers

/-! ## unified_llm_evaluate_papers_node.py -/

/-- Python slicing s[:n]. -/
def pyTake (n : Nat) (s : String) : String := ⟨s.data.take n⟩

/-- Python float() on a parsed JSON value. The string case accepts an
optionally signed decimal literal (exponent forms are not modelled). -/
def parseUnsignedFloat (cs : List Char) : Option ℚ :=
  let intDs := cs.takeWhile Char.isDigit
  match cs.dropWhile Char.isDigit with
  | [] => if intDs.isEmpty then none else some (digitsToNat intDs : ℚ)
  | '.' :: r2 =>
    let fracDs := r2.takeWhile Char.isDigit
    if (r2.dropWhile Char.isDigit).isEmpty ∧ !(intDs.isEmpty ∧ fracDs.isEmpty) then
      some (floatTokenVal intDs fracDs)
    else none
  | _ => none

def pyFloat : Json → Except String ℚ
  | .num q => .ok q
  | .bool b => .ok (if b then 1 else 0)
  | .str s =>
    let parsed :=
      match (pyStrip s).data with
      | '-' :: cs => (parseUnsignedFloat cs).map (fun q => -q)
      | '+' :: cs => parseUnsignedFloat cs
      | cs => parseUnsignedFloat cs
    match parsed with
    | some q => .ok q
    | none => .error ("could not convert string to float: " ++ s)
  | .null => .error "float() argument must be a string or a real number, not NoneType"
  | .arr _ => .error "float() argument must be a string or a real number, not list"
  | .obj _ => .error "float() argument must be a string or a real number, not dict"

/-- Python str() on a parsed JSON value (container repr abstracted; the
scoring pipeline only ever renders strings here). -/
def pyStr : Json → String
  | .str s => s
  | .null => "None"
  | .bool true => "True"
  | .bool false => "False"
  | .num q => toString q
  | .arr _ => "[...]"
  | .obj _ => "{...}"

/-- The dictionary produced by
UnifiedLLMEvaluatePapersNode._parse_llm_response. -/
structure ParsedEval where
  relevance : ℚ
  novelty : ℚ
  impact : ℚ
  practicality : ℚ
  review_summary : String
  field_insights : String
  rationale : String
deriving Repr, DecidableEq

/-- The defaults returned by _parse_llm_response when anything in the parse
raises: all axis scores neutral 0.5 plus an explanatory rationale. -/
def parseDefaults (e : String) : ParsedEval :=
  { relevance := 1/2, novelty := 1/2, impact := 1/2, practicality := 1/2,
    review_summary := "LLM評価のパースに失敗しました",
    field_insights := "パースエラー",
    rationale := "パースエラー: " ++ pyTake 100 e }

/-- One axis-score extraction in _parse_llm_response:
float(evaluation.get(key, 0.5)) clipped into [MIN_SCORE, MAX_SCORE]; the
error carries the raised float() conversion failure. -/
def parseScoreField (fields : List (String × Json)) (key : String) : Except String ℚ :=
  (pyFloat (Json.getD fields key (.num (1/2)))).map
    (fun q => max MIN_SCORE (min MAX_SCORE q))

/-- UnifiedLLMEvaluatePapersNode._parse_llm_response. The argument is the
outcome of the JSON-block extraction plus json.loads on the raw response
(Except.error = unparseable response). Clips every score into [0,1]; any
failure inside the try block yields the neutral defaults. -/
def parseLlmResponse (loaded : Except String Json) : ParsedEval :=
  match loaded with
  | .error e => parseDefaults e
  | .ok (.obj fields) =>
    match parseScoreField fields "relevance", parseScoreField fields "novelty",
        parseScoreField fields "impact", parseScoreField fields "practicality" with
    | .ok r, .ok n, .ok i, .ok p =>
      { relevance := r, novelty := n, impact := i, practicality := p,
        review_summary := pyTake 500 (pyStr (Json.getD fields "review_summary" (.str "レビュー要約なし"))),
        field_insights := pyTake 300 (pyStr (Json.getD fields "field_insights" (.str "フィールド情報なし"))),
        rationale := pyTake 500 (pyStr (Json.getD fields "rationale" (.str "評価理由なし"))) }
    | .error e, _, _, _ => parseDefaults e
    | _, .error e, _, _ => parseDefaults e
    | _, _, .error e, _ => parseDefaults e
    | _, _, _, .error e => parseDefaults e
  | .ok _ => parseDefaults "AttributeError: object has no attribute get"

/-- One unified-scoring interaction: either the LLM answered (with the given
parse outcome) or the call raised. -/
inductive UnifiedCall where
  | response (loaded : Except String Json)
  | raised (msg : String)

/-- The per-paper body of UnifiedLLMEvaluatePapersNode.__call__: on success,
copy the parsed evaluation onto the paper and recompute overall_score under
the fixed 0.40/0.25/0.25/0.10 weighting; when the call raises, set every
score to the neutral 0.5 and record an error rationale. -/
def unifiedStep (paper : EvaluatedPaper) : UnifiedCall → EvaluatedPaper
  | .raised msg =>
    { paper with
      relevance_score := some (1/2), novelty_score := some (1/2),
      impact_score := some (1/2), practicality_score := some (1/2),
      overall_score := some (1/2),
      review_summary := some "評価に失敗しました",
      field_insights := some "N/A",
      ai_rationale := some ("LLM評価エラー: " ++ pyTake 100 msg) }
  | .response loaded =>
    let evaluation := parseLlmResponse loaded
    { paper with
      relevance_score := some evaluation.relevance,
      novelty_score := some evaluation.novelty,
      impact_score := some evaluation.impact,
      practicality_score := some evaluation.practicality,
      review_summary := some evaluation.review_summary,
      field_insights := some evaluation.field_insights,
      ai_rationale := some evaluation.rationale,
      overall_score := some
        (evaluation.relevance * (40/100) + evaluation.novelty * (25/100) +
         evaluation.impact * (25/100) + evaluation.practicality * (10/100)) }

/-- UnifiedLLMEvaluatePapersNode.__call__ over the ranked papers. -/
def unifiedLlmEvaluatePapersNode (oracle : EvaluatedPaper → UnifiedCall) :
    List EvaluatedPaper → List EvaluatedPaper
  | [] => []
  | p :: rest => unifiedStep p (oracle p) :: unifiedLlmEvaluatePapersNode oracle rest

/-! ## tools/search_papers.py with tools/cache_manager.py -/

/-- The per-paper record handled by search_papers (the fields its keyword
filter reads; the remaining fields ride along unread). -/
structure PaperInfo where
  id : String
  title : String
  abstract : String
deriving Repr, DecidableEq

/-- The storage environment one search_papers call runs against:
the optional local all_papers.json corpus, an optional valid cache entry for
this key, the API outcome, and whether the CacheManager.set write raises. -/
structure SearchEnv where
  local_papers : Option (List PaperInfo)
  cached_result : Option (List PaperInfo)
  api_result : Except String (List PaperInfo)
  cache_write_error : Option String
deriving Repr

/-- The JSON payload search_papers returns: a paper list, or the
single-field error object built in its except handler. -/
inductive SearchResult where
  | papers (ps : List PaperInfo)
  | errorPayload (msg : String)
deriving Repr, DecidableEq

/-- The keyword test applied per paper (case-folded substring on title or
abstract); no keyword admits everything. -/
def keywordMatches (keywords : Option String) (p : PaperInfo) : Bool :=
  match keywords with
  | none => true
  | some kw =>
    strContains (pyLower p.title) (pyLower kw) || strContains (pyLower p.abstract) (pyLower kw)

/-- The append-then-break accumulation loop of search_papers (note it always
appends the matching paper before comparing against max_results). -/
def filterWithCap (keywords : Option String) (max_results : Int) :
    List PaperInfo → List PaperInfo → List PaperInfo
  | acc, [] => acc
  | acc, p :: rest =>
    if keywordMatches keywords p then
      if max_results ≤ (acc.length + 1 : Int) then acc ++ [p]
      else filterWithCap keywords max_results (acc ++ [p]) rest
    else filterWithCap keywords max_results acc rest

/-- search_papers: read the local corpus file if present, else a valid cache
entry, else the API; an API success is written back to the cache inside the
function-wide try block, so a raising cache write is caught by the same
except handler that serves API failures. -/
def searchPapers (env : SearchEnv) (keywords : Option String) (max_results : Int) :
    SearchResult :=
  match env.local_papers with
  | some all_papers => .papers (filterWithCap keywords max_results [] all_papers)
  | none =>
    match env.cached_result with
    | some cached => .papers cached
    | none =>
      match env.api_result with
      | .error e => .errorPayload ("Error searching papers: " ++ e)
      | .ok submissions =>
        let papers := filterWithCap keywords max_results [] submissions
        match env.cache_write_error with
        | some msg => .errorPayload ("Error searching papers: " ++ msg)
        | none => .papers papers

/-! ## fetch_all_papers.py (checkpointed resume) -/

/-- A submission returned by the bulk listing call. -/
structure Submission where
  id : String
deriving Repr, DecidableEq

/-- One entry of the accumulated record list (per-record review detail is
abstracted into an uninterpreted payload produced by the fetch oracle). -/
structure FetchedRecord where
  id : String
  payload : String
deriving Repr, DecidableEq

/-- Ascending comparison on the record count a checkpoint file is tagged
with (the sort key extracted from the filename). -/
def checkpointLE (a b : Nat × List FetchedRecord) : Prop := a.1 ≤ b.1

instance : DecidableRel checkpointLE := fun a b =>
  inferInstanceAs (Decidable (a.1 ≤ b.1))

instance : IsTotal (Nat × List FetchedRecord) checkpointLE :=
  ⟨fun a b => Nat.le_total a.1 b.1⟩

instance : IsTrans (Nat × List FetchedRecord) checkpointLE :=
  ⟨fun _ _ _ h h' => Nat.le_trans h h'⟩

/-- sorted(temp_files, key=count)[-1]: pick the checkpoint artifact tagged
with the highest record count. -/
def pickLatestCheckpoint (cps : List (Nat × List FetchedRecord)) :
    Option (Nat × List FetchedRecord) :=
  (cps.insertionSort checkpointLE).getLast?

/-- The main loop of fetch_all_papers: walk the submission list, skip
identifiers already in processed_ids (seeded from the checkpoint), fetch
review detail for each remaining one. Returns the newly appended records and
the number of per-record fetch calls. -/
def fetchLoop (oracle : String → String) (processed_ids : List String) :
    List Submission → List FetchedRecord × Nat
  | [] => ([], 0)
  | s :: rest =>
    let r := fetchLoop oracle processed_ids rest
    if processed_ids.contains s.id then r
    else (⟨s.id, oracle s.id⟩ :: r.1, r.2 + 1)

/-- Resume: seed processed_ids from the loaded checkpoint, run the loop, and
merge checkpointed and new records into the final artifact. -/
def resumeFetch (oracle : String → String) (checkpoint : List FetchedRecord)
    (submissions : List Submission) : List FetchedRecord × Nat :=
  let processed_ids := checkpoint.map (fun p => p.id)
  let run := fetchLoop oracle processed_ids submissions
  (checkpoint ++ run.1, run.2)

/-! ## Concrete sample data used by counterexamples and witnesses -/

/-- The aggregate update the refinement claim describes, written from the
claim itself for comparison against the code: shift the prior aggregate by
the relevance difference times the configured relevance weight. -/
def claimedPreliminaryOverall (w : ScoringWeights) (old_overall old_rel new_rel : ℚ) : ℚ :=
  old_overall + (new_rel - old_rel) * w.relevance_weight

/-- A ranked paper entering the preliminary refinement with prior relevance
0 and prior aggregate 1. -/
def cxRefinementPaper : EvaluatedPaper :=
  { id := "cx1", title := "", authors := [], abstract := "", keywords := [], reviews := [],
    rating_avg := none, confidence_avg := none, decision := none, decision_comment := none,
    relevance_score := some 0, overall_score := some 1 }

/-- A ranked paper entering the preliminary refinement with prior relevance
0 and prior aggregate 0. -/
def cxZeroPaper : EvaluatedPaper :=
  { id := "cx2", title := "", authors := [], abstract := "", keywords := [], reviews := [],
    rating_avg := none, confidence_avg := none, decision := none, decision_comment := none,
    relevance_score := some 0, overall_score := some 0 }

/-- A ranked paper entering the preliminary refinement with no prior
relevance and prior aggregate 0. -/
def cxNoRelevancePaper : EvaluatedPaper :=
  { id := "cx3", title := "", authors := [], abstract := "", keywords := [], reviews := [],
    rating_avg := none, confidence_avg := none, decision := none, decision_comment := none,
    relevance_score := none, overall_score := some 0 }

/-- A ranked paper entering the preliminary refinement with nonzero prior
relevance 0.3 and prior aggregate 0.6. -/
def cxPriorRelevancePaper : EvaluatedPaper :=
  { id := "cx4", title := "", authors := [], abstract := "", keywords := [], reviews := [],
    rating_avg := none, confidence_avg := none, decision := none, decision_comment := none,
    relevance_score := some (3/10), overall_score := some (6/10) }

/-- Criteria that send one candidate through the preliminary pass. -/
def cxCriteria : EvaluationCriteria := { preliminary_llm_filter_count := 1 }

/-- A valid ScoringWeights whose relevance weight is 0.5 rather than the
default 0.4. -/
def cxWeights : ScoringWeights :=
  { openreview_weight := 4/10, llm_weight := 6/10,
    relevance_weight := 5/10, novelty_weight := 25/100, impact_weight := 25/100 }

/-- A paper record served by the search API in the cache-write scenario. -/
def cxSearchPaper : PaperInfo :=
  { id := "s1", title := "t", abstract := "a" }

/-- A search environment where the API succeeds but the cache write raises. -/
def cxSearchEnv : SearchEnv :=
  { local_papers := none, cached_result := none,
    api_result := .ok [cxSearchPaper], cache_write_error := some "Disk full" }

/-- The concrete-scenario criteria of the relevance formula claim. -/
def scenarioCriteria : EvaluationCriteria := { research_interests := ["graph generation"] }

/-- The concrete-scenario paper: keyword list contains the synonym, the
title and abstract contain neither term. -/
def scenarioPaper : Paper :=
  { id := "p1", title := "A paper on molecules", authors := [], abstract := "about chemistry",
    keywords := ["graph synthesis"], reviews := [], rating_avg := none, confidence_avg := none,
    decision := none, decision_comment := none }

/-- The concrete-scenario synonym dictionary. -/
def scenarioSyns : SynDict := [("graph generation", ["graph synthesis"])]

/-- A paper with no embedded review data, used to exercise fetch outcomes. -/
def witnessPaper : Paper :=
  { id := "w1", title := "", authors := [], abstract := "", keywords := [], reviews := [],
    rating_avg := none, confidence_avg := none, decision := none, decision_comment := none }

end PaperReview

/-! # Theorems -/

namespace PaperReview

/-! ## Shared helper lemmas -/

theorem filter_length_mono {α : Type} (l : List α) (p q : α → Bool)
    (h : ∀ a, p a = true → q a = true) :
    (l.filter p).length ≤ (l.filter q).length := by
  induction l with
  | nil => simp
  | cons x rest ih =>
    by_cases hx : p x = true
    · simp [List.filter_cons, hx, h x hx]
      omega
    · simp only [List.filter_cons, Bool.not_eq_true] at hx ⊢
      rw [hx]
      cases hq : q x <;> simp <;> omega

theorem clamp01_bounds (x : ℚ) : 0 ≤ clamp01 x ∧ clamp01 x ≤ 1 := by
  unfold clamp01 MIN_SCORE MAX_SCORE
  constructor
  · exact le_min (le_max_right x 0) (by norm_num)
  · exact min_le_right _ _

theorem scoredEvaluatedPaper_id (w : ScoringWeights) (c : EvaluationCriteria)
    (syns : SynDict) (p : Paper) (m : Metadata) :
    (scoredEvaluatedPaper w c syns p m).id = p.id := by
  unfold scoredEvaluatedPaper
  split <;> simp [EvaluatedPaper.ofPaper, errorEvaluatedPaper]

theorem evaluatePaperStep_id (w : ScoringWeights) (c : EvaluationCriteria)
    (syns : SynDict) (fetch : Paper → MetadataFetch) (p : Paper) :
    (evaluatePaperStep w c syns fetch p).id = p.id := by
  unfold evaluatePaperStep
  split
  · exact scoredEvaluatedPaper_id ..
  · cases fetch p with
    | ok m => exact scoredEvaluatedPaper_id ..
    | errorField msg => simp [noMetadataEvaluatedPaper, EvaluatedPaper.ofPaper]
    | raised e => simp [errorEvaluatedPaper, EvaluatedPaper.ofPaper]

/-! ## Claim theorems -/

/-- C2: ScoringWeights construction succeeds exactly when both weight sums
are within 0.01 of 1.0; otherwise it fails with a raised configuration
error (modelled by the Except.error result of the pure constructor, raised
before any network activity happens). -/
theorem scoring_weights_validation :
    ∀ ow lw rw nw iw : ℚ,
      ((mkScoringWeights ow lw rw nw iw).isOk = true ↔
        (|ow + lw - 1| ≤ 1/100 ∧ |rw + nw + iw - 1| ≤ 1/100)) ∧
      (¬(|ow + lw - 1| ≤ 1/100 ∧ |rw + nw + iw - 1| ≤ 1/100) →
        ∃ e, mkScoringWeights ow lw rw nw iw = .error e) := by
  intro ow lw rw nw iw
  unfold mkScoringWeights
  by_cases h1 : |ow + lw - 1| > 1/100
  · simp only [if_pos h1]
    constructor
    · simp [Except.isOk, Except.toBool]
      intro h
      linarith
    · intro _
      exact ⟨_, rfl⟩
  · simp only [if_neg h1]
    push_neg at h1
    by_cases h2 : |rw + nw + iw - 1| > 1/100
    · simp only [if_pos h2]
      constructor
      · simp [Except.isOk, Except.toBool]
        intro h
        linarith
      · intro _
        exact ⟨_, rfl⟩
    · simp only [if_neg h2]
      push_neg at h2
      constructor
      · constructor
        · intro _
          exact ⟨h1, h2⟩
        · intro _
          rfl
      · intro h
        exact absurd ⟨h1, h2⟩ h

/-- C2 witness: the default weights pass both checks and an unbalanced pair
fails with an error. -/
theorem scoring_weights_validation_witness :
    ∃ e, mkScoringWeights (6/10) (6/10) (4/10) (3/10) (3/10) = .error e := by
  refine (scoring_weights_validation (6/10) (6/10) (4/10) (3/10) (3/10)).2 ?_
  intro h
  have h2 := (abs_le.mp h.1).2
  linarith

/-- C7: a unified-scoring response that does not parse as JSON yields
neutral 0.5 on all four axes, an aggregate of exactly 0.5, and a
descriptive rationale recorded on the paper; and the node keeps every paper
(same identifiers in the same order), so the run continues. -/
theorem unified_malformed_response_defaults :
    (∀ (p : EvaluatedPaper) (e : String),
      unifiedStep p (.response (.error e)) =
        { p with
          relevance_score := some (1/2)
          novelty_score := some (1/2)
          impact_score := some (1/2)
          practicality_score := some (1/2)
          overall_score := some (1/2)
          review_summary := some "LLM評価のパースに失敗しました"
          field_insights := some "パースエラー"
          ai_rationale := some ("パースエラー: " ++ pyTake 100 e) }) ∧
    (∀ (oracle : EvaluatedPaper → UnifiedCall) (papers : List EvaluatedPaper),
      (unifiedLlmEvaluatePapersNode oracle papers).map (fun p => p.id)
        = papers.map (fun p => p.id)) := by
  constructor
  · intro p e
    simp only [unifiedStep, parseLlmResponse, parseDefaults]
    norm_num
  · intro oracle papers
    induction papers with
    | nil => rfl
    | cons p rest ih =>
      simp only [unifiedLlmEvaluatePapersNode, List.map_cons, ih]
      cases h : oracle p with
      | raised msg => simp [unifiedStep]
      | response loaded => simp [unifiedStep]

/-- C8: raising min_relevance_score (all else equal) shrinks the admitted
set, and papers with unknown relevance or unknown/unconfigured rating are
never rejected by the corresponding threshold. -/
theorem admission_filter_monotone :
    (∀ (papers : List EvaluatedPaper) (c₁ c₂ : EvaluationCriteria),
      c₁.min_relevance_score ≤ c₂.min_relevance_score →
      c₁.min_rating = c₂.min_rating →
      (papers.filter (fun p => meetsCriteria p c₂) ⊆
        papers.filter (fun p => meetsCriteria p c₁) ∧
       (papers.filter (fun p => meetsCriteria p c₂)).length ≤
        (papers.filter (fun p => meetsCriteria p c₁)).length)) ∧
    (∀ (p : EvaluatedPaper) (c : EvaluationCriteria),
      p.relevance_score = none → (c.min_rating = none ∨ p.rating_avg = none) →
      meetsCriteria p c = true) ∧
    (∀ (p : EvaluatedPaper) (c : EvaluationCriteria) (r : ℚ),
      p.relevance_score = some r → c.min_relevance_score ≤ r →
      (c.min_rating = none ∨ p.rating_avg = none) →
      meetsCriteria p c = true) := by
  refine ⟨?_, ?_, ?_⟩
  · intro papers c₁ c₂ hle hr
    have key : ∀ p, meetsCriteria p c₂ = true → meetsCriteria p c₁ = true := by
      intro p h
      unfold meetsCriteria at h ⊢
      rw [hr]
      cases hrel : p.relevance_score with
      | none => simpa [hrel] using (by simpa [hrel] using h)
      | some r =>
        simp only [hrel, Bool.and_eq_true, Bool.not_eq_true', decide_eq_false_iff_not,
          not_lt] at h ⊢
        exact ⟨le_trans hle h.1, h.2⟩
    constructor
    · intro x hx
      rw [List.mem_filter] at hx ⊢
      exact ⟨hx.1, key x hx.2⟩
    · exact filter_length_mono papers _ _ key
  · intro p c hrel hnone
    unfold meetsCriteria
    rw [hrel]
    rcases hnone with h | h
    · simp [h]
    · simp only [h]
      cases c.min_rating <;> simp
  · intro p c r hrel hle hnone
    unfold meetsCriteria
    rw [hrel]
    have : ¬ r < c.min_relevance_score := not_lt.mpr hle
    rcases hnone with h | h
    · simp [h, this]
    · rw [h]
      cases c.min_rating <;> simp [this]

/-- C8 witness at concrete criteria: tightening the threshold from 0.3 to
0.6 shrinks the admitted set, and unknown values pass. -/
theorem admission_filter_monotone_witness :
    ([cxRefinementPaper].filter
        (fun p => meetsCriteria p { min_relevance_score := 6/10 }) ⊆
      [cxRefinementPaper].filter
        (fun p => meetsCriteria p { min_relevance_score := 3/10 })) ∧
    meetsCriteria cxNoRelevancePaper { min_relevance_score := 6/10 } = true := by
  constructor
  · exact ((admission_filter_monotone.1 [cxRefinementPaper]
      { min_relevance_score := 3/10 } { min_relevance_score := 6/10 }
      (by norm_num) rfl).1)
  · exact admission_filter_monotone.2.1 cxNoRelevancePaper _ rfl (Or.inl rfl)

/-- C10: the heuristic evaluation stage returns exactly one EvaluatedPaper
per input Paper, in order and with the same identifiers; a raised metadata
fetch degrades that paper to overall_score 0 with an error rationale
rather than dropping it. -/
theorem heuristic_evaluation_preserves_list :
    (∀ w c syns fetch (papers : List Paper),
      (evaluatePapersLoop w c syns fetch papers).map (fun p => p.id)
        = papers.map (fun p => p.id)) ∧
    (∀ w c syns fetch (papers : List Paper),
      (evaluatePapersLoop w c syns fetch papers).length = papers.length) ∧
    (∀ w c fetch synOracle st (papers : List Paper),
      ((evaluatePapersNode w c fetch synOracle st papers).1).map (fun p => p.id)
        = papers.map (fun p => p.id)) ∧
    (∀ w c syns fetch (p : Paper) e,
      fetch p = .raised e → (p.reviews.isEmpty = true ∨ p.rating_avg = none) →
      evaluatePaperStep w c syns fetch p = errorEvaluatedPaper p e) ∧
    (∀ (p : Paper) e, (errorEvaluatedPaper p e).id = p.id ∧
      (errorEvaluatedPaper p e).overall_score = some 0 ∧
      (errorEvaluatedPaper p e).evaluation_rationale = "評価エラー: " ++ e) := by
  have hmap : ∀ w c syns fetch (papers : List Paper),
      (evaluatePapersLoop w c syns fetch papers).map (fun p => p.id)
        = papers.map (fun p => p.id) := by
    intro w c syns fetch papers
    induction papers with
    | nil => rfl
    | cons p rest ih =>
      simp only [evaluatePapersLoop, List.map_cons, ih, evaluatePaperStep_id]
  refine ⟨hmap, ?_, ?_, ?_, ?_⟩
  · intro w c syns fetch papers
    have := congrArg List.length (hmap w c syns fetch papers)
    simpa using this
  · intro w c fetch synOracle st papers
    unfold evaluatePapersNode
    exact hmap _ _ _ _ _
  · intro w c syns fetch p e hf hcond
    unfold evaluatePaperStep
    have hneg : ¬((!p.reviews.isEmpty) = true ∧ p.rating_avg.isSome = true) := by
      rcases hcond with h | h
      · simp [h]
      · simp [h]
    rw [if_neg hneg, hf]
  · intro p e
    exact ⟨rfl, rfl, rfl⟩

theorem relevanceCounts_foldl (synonyms : SynDict) (kws : List String) (text : String)
    (interests : List String) (a b c : Nat) :
    interests.foldl (relevanceStep synonyms kws text) (a, b, c) =
      (a + interests.countP
            (fun i => groupKeywordMatch i synonyms kws || groupTextMatch i synonyms text),
       b + interests.countP (fun i => groupKeywordMatch i synonyms kws),
       c + interests.countP
            (fun i => !groupKeywordMatch i synonyms kws && groupTextMatch i synonyms text)) := by
  induction interests generalizing a b c with
  | nil => simp
  | cons i rest ih =>
    rw [List.foldl_cons, List.countP_cons, List.countP_cons, List.countP_cons, ih]
    cases hk : groupKeywordMatch i synonyms kws <;>
      cases ht : groupTextMatch i synonyms text <;>
        simp [relevanceStep, hk, ht] <;> omega

/-- The counting loop counts, per group: a match of any kind, a keyword
match, and a text match on a group with no keyword match. -/
theorem relevanceCounts_spec (interests : List String) (synonyms : SynDict)
    (kws : List String) (text : String) :
    relevanceCounts interests synonyms kws text =
      (interests.countP
        (fun i => groupKeywordMatch i synonyms kws || groupTextMatch i synonyms text),
       interests.countP (fun i => groupKeywordMatch i synonyms kws),
       interests.countP
        (fun i => !groupKeywordMatch i synonyms kws && groupTextMatch i synonyms text)) := by
  unfold relevanceCounts
  simpa using relevanceCounts_foldl synonyms kws text interests 0 0 0

theorem calculateRelevanceScore_eq (paper : Paper) (criteria : EvaluationCriteria)
    (synonyms : SynDict) (h : criteria.research_interests ≠ []) :
    calculateRelevanceScore paper criteria synonyms =
      min 1
        (((criteria.research_interests.countP
              (fun i => groupKeywordMatch i synonyms (paper.keywords.map normKw)) : ℚ) * (7/10) +
          (criteria.research_interests.countP
              (fun i => !groupKeywordMatch i synonyms (paper.keywords.map normKw) &&
                groupTextMatch i synonyms (pyLower (paper.title ++ " " ++ paper.abstract))) : ℚ) * (2/10) +
          (criteria.research_interests.countP
              (fun i => groupKeywordMatch i synonyms (paper.keywords.map normKw) ||
                groupTextMatch i synonyms (pyLower (paper.title ++ " " ++ paper.abstract))) : ℚ) * (1/10)) /
         (criteria.research_interests.length : ℚ)) := by
  have hlen : 0 < criteria.research_interests.length := List.length_pos.mpr h
  have hN : ((criteria.research_interests.length : ℚ)) ≠ 0 := by
    exact_mod_cast Nat.pos_iff_ne_zero.mp hlen
  simp only [calculateRelevanceScore]
  rw [if_neg (by simp [List.isEmpty_iff, h]), relevanceCounts_spec, if_pos hlen, if_pos hlen]
  simp only [RELEVANCE_KEYWORD_WEIGHT, RELEVANCE_TEXT_WEIGHT, RELEVANCE_COVERAGE_WEIGHT,
    MAX_SCORE]
  congr 1
  field_simp
  ring

theorem calculateRelevanceScore_bounds (paper : Paper) (criteria : EvaluationCriteria)
    (synonyms : SynDict) :
    0 ≤ calculateRelevanceScore paper criteria synonyms ∧
      calculateRelevanceScore paper criteria synonyms ≤ 1 := by
  simp only [calculateRelevanceScore]
  split
  · norm_num
  · have hN : (0:ℚ) ≤ (criteria.research_interests.length : ℚ) := Nat.cast_nonneg _
    have hw : ∀ w : ℚ, 0 ≤ w →
        (0:ℚ) ≤ (if 0 < criteria.research_interests.length then
          w / (criteria.research_interests.length : ℚ) else 0) := by
      intro w hwpos
      split
      · exact div_nonneg hwpos hN
      · exact le_refl 0
    constructor
    · refine le_min (by norm_num [MAX_SCORE]) ?_
      have t1 := mul_nonneg (Nat.cast_nonneg
        (α := ℚ) ((relevanceCounts criteria.research_interests synonyms
          (paper.keywords.map normKw) (pyLower (paper.title ++ " " ++ paper.abstract))).2.1))
        (hw RELEVANCE_KEYWORD_WEIGHT (by norm_num [RELEVANCE_KEYWORD_WEIGHT]))
      have t2 := mul_nonneg (Nat.cast_nonneg
        (α := ℚ) ((relevanceCounts criteria.research_interests synonyms
          (paper.keywords.map normKw) (pyLower (paper.title ++ " " ++ paper.abstract))).2.2))
        (hw RELEVANCE_TEXT_WEIGHT (by norm_num [RELEVANCE_TEXT_WEIGHT]))
      have t3 : (0:ℚ) ≤ ((relevanceCounts criteria.research_interests synonyms
          (paper.keywords.map normKw) (pyLower (paper.title ++ " " ++ paper.abstract))).1 : ℚ) /
            (criteria.research_interests.length : ℚ) * RELEVANCE_COVERAGE_WEIGHT :=
        mul_nonneg (div_nonneg (Nat.cast_nonneg _) hN) (by norm_num [RELEVANCE_COVERAGE_WEIGHT])
      linarith
    · exact le_trans (min_le_left _ _) (by norm_num [MAX_SCORE])

/-- C6: with N research-interest groups, the heuristic relevance score is
exactly (keyword_matches * 0.70 + text_only_matches * 0.20 +
groups_matched * 0.10) / N clamped into [0,1], where each group counts at
most once and a keyword match takes precedence over a text match; with no
research interests the score is the neutral 0.5; and the concrete
graph-generation scenario scores exactly 0.80. -/
theorem relevance_score_formula :
    (∀ (paper : Paper) (criteria : EvaluationCriteria) (synonyms : SynDict),
      criteria.research_interests ≠ [] →
      calculateRelevanceScore paper criteria synonyms =
        min 1
          (((criteria.research_interests.countP
                (fun i => groupKeywordMatch i synonyms (paper.keywords.map normKw)) : ℚ) * (7/10) +
            (criteria.research_interests.countP
                (fun i => !groupKeywordMatch i synonyms (paper.keywords.map normKw) &&
                  groupTextMatch i synonyms (pyLower (paper.title ++ " " ++ paper.abstract))) : ℚ) * (2/10) +
            (criteria.research_interests.countP
                (fun i => groupKeywordMatch i synonyms (paper.keywords.map normKw) ||
                  groupTextMatch i synonyms (pyLower (paper.title ++ " " ++ paper.abstract))) : ℚ) * (1/10)) /
           (criteria.research_interests.length : ℚ)) ∧
      0 ≤ calculateRelevanceScore paper criteria synonyms ∧
      calculateRelevanceScore paper criteria synonyms ≤ 1) ∧
    (∀ (paper : Paper) (criteria : EvaluationCriteria) (synonyms : SynDict),
      criteria.research_interests = [] →
      calculateRelevanceScore paper criteria synonyms = 1/2) ∧
    calculateRelevanceScore scenarioPaper scenarioCriteria scenarioSyns = 8/10 := by
  refine ⟨?_, ?_, ?_⟩
  · intro paper criteria synonyms h
    exact ⟨calculateRelevanceScore_eq paper criteria synonyms h,
      (calculateRelevanceScore_bounds paper criteria synonyms).1,
      (calculateRelevanceScore_bounds paper criteria synonyms).2⟩
  · intro paper criteria synonyms h
    simp [calculateRelevanceScore, h]
  · rw [calculateRelevanceScore_eq scenarioPaper scenarioCriteria scenarioSyns (by decide)]
    rw [show scenarioCriteria.research_interests = ["graph generation"] from rfl]
    rw [show List.countP
        (fun i => groupKeywordMatch i scenarioSyns (scenarioPaper.keywords.map normKw))
        ["graph generation"] = 1 from by decide]
    rw [show List.countP
        (fun i => !groupKeywordMatch i scenarioSyns (scenarioPaper.keywords.map normKw) &&
          groupTextMatch i scenarioSyns (pyLower (scenarioPaper.title ++ " " ++ scenarioPaper.abstract)))
        ["graph generation"] = 0 from by decide]
    rw [show List.countP
        (fun i => groupKeywordMatch i scenarioSyns (scenarioPaper.keywords.map normKw) ||
          groupTextMatch i scenarioSyns (pyLower (scenarioPaper.title ++ " " ++ scenarioPaper.abstract)))
        ["graph generation"] = 1 from by decide]
    norm_num

/-- C6 witness: the formula conjunct instantiated at the concrete
scenario's inputs. -/
theorem relevance_score_formula_witness :
    calculateRelevanceScore scenarioPaper scenarioCriteria scenarioSyns =
      min 1
        (((scenarioCriteria.research_interests.countP
              (fun i => groupKeywordMatch i scenarioSyns (scenarioPaper.keywords.map normKw)) : ℚ) * (7/10) +
          (scenarioCriteria.research_interests.countP
              (fun i => !groupKeywordMatch i scenarioSyns (scenarioPaper.keywords.map normKw) &&
                groupTextMatch i scenarioSyns (pyLower (scenarioPaper.title ++ " " ++ scenarioPaper.abstract))) : ℚ) * (2/10) +
          (scenarioCriteria.research_interests.countP
              (fun i => groupKeywordMatch i scenarioSyns (scenarioPaper.keywords.map normKw) ||
                groupTextMatch i scenarioSyns (pyLower (scenarioPaper.title ++ " " ++ scenarioPaper.abstract))) : ℚ) * (1/10)) /
         (scenarioCriteria.research_interests.length : ℚ)) :=
  (relevance_score_formula.1 scenarioPaper scenarioCriteria scenarioSyns (by decide)).1

theorem parseScoreField_bounds (fields : List (String × Json)) (key : String) (q : ℚ)
    (h : parseScoreField fields key = .ok q) : 0 ≤ q ∧ q ≤ 1 := by
  unfold parseScoreField at h
  cases hf : pyFloat (Json.getD fields key (.num (1/2))) with
  | error e => rw [hf] at h; simp [Except.map] at h
  | ok v =>
    rw [hf] at h
    simp only [Except.map, Except.ok.injEq] at h
    subst h
    unfold MIN_SCORE MAX_SCORE
    exact ⟨le_max_left 0 _, max_le (by norm_num) (min_le_left 1 v)⟩

theorem parseLlmResponse_bounds (loaded : Except String Json) :
    (0 ≤ (parseLlmResponse loaded).relevance ∧ (parseLlmResponse loaded).relevance ≤ 1) ∧
    (0 ≤ (parseLlmResponse loaded).novelty ∧ (parseLlmResponse loaded).novelty ≤ 1) ∧
    (0 ≤ (parseLlmResponse loaded).impact ∧ (parseLlmResponse loaded).impact ≤ 1) ∧
    (0 ≤ (parseLlmResponse loaded).practicality ∧ (parseLlmResponse loaded).practicality ≤ 1) := by
  unfold parseLlmResponse
  split
  · simp [parseDefaults]; norm_num
  · split
    · rename_i fields r n i p h1 h2 h3 h4
      simp only
      exact ⟨parseScoreField_bounds _ _ _ h1, parseScoreField_bounds _ _ _ h2,
        parseScoreField_bounds _ _ _ h3, parseScoreField_bounds _ _ _ h4⟩
    all_goals simp [parseDefaults]; norm_num
  · simp [parseDefaults]; norm_num

theorem unifiedStep_bounds (p : EvaluatedPaper) (uc : UnifiedCall) :
    (∀ x ∈ (unifiedStep p uc).relevance_score, 0 ≤ x ∧ x ≤ 1) ∧
    (∀ x ∈ (unifiedStep p uc).novelty_score, 0 ≤ x ∧ x ≤ 1) ∧
    (∀ x ∈ (unifiedStep p uc).impact_score, 0 ≤ x ∧ x ≤ 1) ∧
    (∀ x ∈ (unifiedStep p uc).practicality_score, 0 ≤ x ∧ x ≤ 1) ∧
    (∀ x ∈ (unifiedStep p uc).overall_score, 0 ≤ x ∧ x ≤ 1) := by
  cases uc with
  | raised msg =>
    simp only [unifiedStep, Option.mem_def, Option.some.injEq]
    refine ⟨?_, ?_, ?_, ?_, ?_⟩ <;>
      · intro x hx
        subst hx
        norm_num
  | response loaded =>
    obtain ⟨hr, hn, hi, hp⟩ := parseLlmResponse_bounds loaded
    simp only [unifiedStep, Option.mem_def, Option.some.injEq]
    refine ⟨?_, ?_, ?_, ?_, ?_⟩ <;> intro x hx <;> subst hx
    · exact hr
    · exact hn
    · exact hi
    · exact hp
    · constructor
      · nlinarith [hr.1, hn.1, hi.1, hp.1]
      · nlinarith [hr.2, hn.2, hi.2, hp.2]

/-- The preliminary pass with the literal response 1.0 yields relevance 1. -/
theorem evaluateRelevance_response_ten (p : EvaluatedPaper) :
    evaluateRelevanceWithLlm p (.response "1.0") = 1 := by
  simp only [evaluateRelevanceWithLlm]
  rw [show findFirstFloatToken (pyStrip "1.0").data = some ("1".data, "0".data) from by decide]
  norm_num [floatTokenVal, show digitsToNat "1".data = 1 from by decide,
    show digitsToNat "0".data = 0 from by decide]

/-- C1 counterexample: a paper entering the preliminary refinement with
prior aggregate 1.0 and prior relevance 0.0 leaves the stage with
overall_score 1.4, outside [0.0, 1.0]; the four axis claims survive but the
aggregate claim fails on this stage. -/
theorem scores_clamped_counterexample :
    ((applyPreliminaryLlmFilter (fun _ => .response "1.0") [cxRefinementPaper]
        cxCriteria).map (fun p => p.overall_score) = [some (14/10)]) ∧
    ¬ ((14:ℚ)/10 ≤ 1) := by
  constructor
  · have hupd : updatePreliminaryPaper (LlmCall.response "1.0") cxRefinementPaper
        = { cxRefinementPaper with
            relevance_score := some 1
            overall_score := some (14/10) } := by
      simp only [updatePreliminaryPaper, evaluateRelevance_response_ten]
      norm_num [cxRefinementPaper]
    simp only [applyPreliminaryLlmFilter]
    norm_num [sortByOverallDesc, List.insertionSort, hupd, cxCriteria]
  · norm_num

/-- C1 amended: the heuristic stage and the unified LLM stage clamp every
axis score and their aggregates into [0,1], and the preliminary refinement
clamps its re-computed relevance into [0,1]; the refinement's updated
aggregate, however, is not clamped (see the counterexample). -/
theorem stage_scores_clamped :
    (∀ (paper : Paper) (m : Metadata) (w : ScoringWeights) (c : EvaluationCriteria)
        (syns : SynDict) (s : Scores),
      calculateScores paper m w c syns = .ok s →
        (0 ≤ s.relevance ∧ s.relevance ≤ 1) ∧ (0 ≤ s.novelty ∧ s.novelty ≤ 1) ∧
        (0 ≤ s.impact ∧ s.impact ≤ 1) ∧ (0 ≤ s.overall ∧ s.overall ≤ 1)) ∧
    (∀ (p : EvaluatedPaper) (uc : UnifiedCall),
      (∀ x ∈ (unifiedStep p uc).relevance_score, 0 ≤ x ∧ x ≤ 1) ∧
      (∀ x ∈ (unifiedStep p uc).novelty_score, 0 ≤ x ∧ x ≤ 1) ∧
      (∀ x ∈ (unifiedStep p uc).impact_score, 0 ≤ x ∧ x ≤ 1) ∧
      (∀ x ∈ (unifiedStep p uc).practicality_score, 0 ≤ x ∧ x ≤ 1) ∧
      (∀ x ∈ (unifiedStep p uc).overall_score, 0 ≤ x ∧ x ≤ 1)) ∧
    (∀ (p : EvaluatedPaper) (text : String) (tok : List Char × List Char),
      findFirstFloatToken (pyStrip text).data = some tok →
      0 ≤ evaluateRelevanceWithLlm p (.response text) ∧
        evaluateRelevanceWithLlm p (.response text) ≤ 1) := by
  refine ⟨?_, unifiedStep_bounds, ?_⟩
  · intro paper m w c syns s h
    unfold calculateScores at h
    cases hr : m.rating_avg with
    | none =>
      rw [hr] at h
      simp only [Except.ok.injEq] at h
      subst h
      obtain ⟨hlo, hhi⟩ := calculateRelevanceScore_bounds paper c syns
      refine ⟨⟨hlo, hhi⟩, by norm_num, by norm_num, ?_, ?_⟩ <;> simp only <;> linarith
    | some ra =>
      rw [hr] at h
      simp only at h
      cases hi : calculateImpactScore m (ra / NEURIPS_RATING_SCALE) with
      | error e => rw [hi] at h; simp at h
      | ok impact =>
        rw [hi] at h
        simp only [Except.ok.injEq] at h
        subst h
        exact ⟨clamp01_bounds _, clamp01_bounds _, clamp01_bounds _, clamp01_bounds _⟩
  · intro p text tok h
    simp only [evaluateRelevanceWithLlm, h]
    constructor
    · exact le_max_left 0 _
    · exact max_le (by norm_num) (min_le_left 1 _)

/-- C1 witness: the clamping conjuncts applied at concrete inputs. -/
theorem stage_scores_clamped_witness :
    (∀ x ∈ (unifiedStep cxRefinementPaper (.raised "boom")).overall_score, 0 ≤ x ∧ x ≤ 1) ∧
    (0 ≤ evaluateRelevanceWithLlm cxRefinementPaper (.response "1.0") ∧
      evaluateRelevanceWithLlm cxRefinementPaper (.response "1.0") ≤ 1) :=
  ⟨(stage_scores_clamped.2.1 cxRefinementPaper (.raised "boom")).2.2.2.2,
   stage_scores_clamped.2.2 cxRefinementPaper "1.0" ("1".data, "0".data) (by decide)⟩

/-- C3 amended: the preliminary pass updates each of the top filter_count
candidates by setting relevance to the parsed clamped value and shifting
the aggregate by the relevance difference times the hard-coded 0.4 (not a
configured weight), re-sorting everything by the updated aggregate; a parse
or call failure falls back to the prior relevance when one is set and
nonzero (leaving the aggregate value unchanged), while a prior relevance
that is None or the falsy 0.0 falls back to 0.5 (shifting the aggregate by
0.5 * 0.4 = 0.2). -/
theorem preliminary_refinement_behavior :
    (∀ (oracle : EvaluatedPaper → LlmCall) (ranked : List EvaluatedPaper)
        (c : EvaluationCriteria),
      (applyPreliminaryLlmFilter oracle ranked c).Perm
        ((ranked.take (min c.preliminary_llm_filter_count ranked.length)).map
            (fun p => updatePreliminaryPaper (oracle p) p) ++
          ranked.drop (min c.preliminary_llm_filter_count ranked.length)) ∧
      (applyPreliminaryLlmFilter oracle ranked c).Sorted overallGE) ∧
    (∀ (p : EvaluatedPaper) (text : String) (tok : List Char × List Char),
      findFirstFloatToken (pyStrip text).data = some tok →
      updatePreliminaryPaper (.response text) p =
        { p with
          relevance_score := some (max 0 (min 1 (floatTokenVal tok.1 tok.2)))
          overall_score := some (p.overall_score.getD 0 +
            (max 0 (min 1 (floatTokenVal tok.1 tok.2)) - p.relevance_score.getD 0) * (4/10)) }) ∧
    (∀ (p : EvaluatedPaper) (call : LlmCall) (x : ℚ),
      ((∃ msg, call = .raised msg) ∨
        (∃ text, call = .response text ∧
          findFirstFloatToken (pyStrip text).data = none)) →
      p.relevance_score = some x → x ≠ 0 →
      updatePreliminaryPaper call p =
        { p with
          relevance_score := some x
          overall_score := some (p.overall_score.getD 0) }) ∧
    (∀ (p : EvaluatedPaper) (call : LlmCall),
      ((∃ msg, call = .raised msg) ∨
        (∃ text, call = .response text ∧
          findFirstFloatToken (pyStrip text).data = none)) →
      (p.relevance_score = none ∨ p.relevance_score = some 0) →
      updatePreliminaryPaper call p =
        { p with
          relevance_score := some (1/2)
          overall_score := some (p.overall_score.getD 0 + (1/2) * (4/10)) }) := by
  have hfallback : ∀ (p : EvaluatedPaper) (call : LlmCall),
      ((∃ msg, call = .raised msg) ∨
        (∃ text, call = .response text ∧
          findFirstFloatToken (pyStrip text).data = none)) →
      evaluateRelevanceWithLlm p call = relevanceOrHalf p.relevance_score := by
    intro p call hfail
    rcases hfail with ⟨msg, rfl⟩ | ⟨text, rfl, hparse⟩
    · rfl
    · simp only [evaluateRelevanceWithLlm, hparse]
  refine ⟨?_, ?_, ?_, ?_⟩
  · intro oracle ranked c
    constructor
    · simp only [applyPreliminaryLlmFilter, sortByOverallDesc]
      exact List.perm_insertionSort overallGE _
    · simp only [applyPreliminaryLlmFilter, sortByOverallDesc]
      exact List.sorted_insertionSort overallGE _
  · intro p text tok h
    simp only [updatePreliminaryPaper, evaluateRelevanceWithLlm, h]
  · intro p call x hfail hx hx0
    simp only [updatePreliminaryPaper, hfallback p call hfail, relevanceOrHalf, hx,
      Option.getD_some, if_neg hx0]
    simp [sub_self]
  · intro p call hfail hx
    rcases hx with hx | hx
    · simp only [updatePreliminaryPaper, hfallback p call hfail, relevanceOrHalf, hx,
        Option.getD_none]
      norm_num
    · simp only [updatePreliminaryPaper, hfallback p call hfail, relevanceOrHalf, hx,
        Option.getD_some, if_pos rfl]
      norm_num

/-- C3 counterexample: with a valid configuration whose relevance weight is
0.5, the refinement still shifts the aggregate by the hard-coded 0.4
(0.4 ≠ 0.5 per unit of relevance change); and on a raised call for a paper
with no prior relevance, the relevance becomes 0.5 and the aggregate moves
by 0.2 instead of staying unchanged. -/
theorem preliminary_refinement_counterexample :
    mkScoringWeights (4/10) (6/10) (5/10) (25/100) (25/100) = .ok cxWeights ∧
    (applyPreliminaryLlmFilter (fun _ => .response "1.0") [cxZeroPaper]
        cxCriteria).map (fun p => p.overall_score) = [some (4/10)] ∧
    claimedPreliminaryOverall cxWeights 0 0 1 = 5/10 ∧
    (4:ℚ)/10 ≠ 5/10 ∧
    (applyPreliminaryLlmFilter (fun _ => .raised "timeout") [cxNoRelevancePaper]
        cxCriteria).map (fun p => (p.relevance_score, p.overall_score))
      = [(some (1/2), some (2/10))] := by
  refine ⟨?_, ?_, ?_, by norm_num, ?_⟩
  · rw [mkScoringWeights]
    norm_num [cxWeights]
  · have hupd : updatePreliminaryPaper (LlmCall.response "1.0") cxZeroPaper
        = { cxZeroPaper with
            relevance_score := some 1
            overall_score := some (4/10) } := by
      simp only [updatePreliminaryPaper, evaluateRelevance_response_ten]
      norm_num [cxZeroPaper]
    simp only [applyPreliminaryLlmFilter]
    norm_num [sortByOverallDesc, List.insertionSort, hupd, cxCriteria]
  · norm_num [claimedPreliminaryOverall, cxWeights]
  · have hupd : updatePreliminaryPaper (LlmCall.raised "timeout") cxNoRelevancePaper
        = { cxNoRelevancePaper with
            relevance_score := some (1/2)
            overall_score := some (2/10) } := by
      simp only [updatePreliminaryPaper, evaluateRelevanceWithLlm, relevanceOrHalf]
      norm_num [cxNoRelevancePaper]
    simp only [applyPreliminaryLlmFilter]
    norm_num [sortByOverallDesc, List.insertionSort, hupd, cxCriteria]

/-- C3 witness: the per-paper update conjuncts applied at concrete inputs:
a successful parse, a raised call at a nonzero prior relevance, and a
raised call at the falsy prior relevance 0.0. -/
theorem preliminary_refinement_behavior_witness :
    updatePreliminaryPaper (.response "0.85") cxZeroPaper =
      { cxZeroPaper with
        relevance_score := some (max 0 (min 1 (floatTokenVal "0".data "85".data)))
        overall_score := some (cxZeroPaper.overall_score.getD 0 +
          (max 0 (min 1 (floatTokenVal "0".data "85".data)) -
            cxZeroPaper.relevance_score.getD 0) * (4/10)) } ∧
    updatePreliminaryPaper (.raised "timeout") cxPriorRelevancePaper =
      { cxPriorRelevancePaper with
        relevance_score := some (3/10)
        overall_score := some (cxPriorRelevancePaper.overall_score.getD 0) } ∧
    updatePreliminaryPaper (.raised "timeout") cxZeroPaper =
      { cxZeroPaper with
        relevance_score := some (1/2)
        overall_score := some (cxZeroPaper.overall_score.getD 0 + (1/2) * (4/10)) } :=
  ⟨preliminary_refinement_behavior.2.1 cxZeroPaper "0.85" ("0".data, "85".data) (by decide),
   preliminary_refinement_behavior.2.2.1 cxPriorRelevancePaper (.raised "timeout") (3/10)
     (Or.inl ⟨"timeout", rfl⟩) rfl (by norm_num),
   preliminary_refinement_behavior.2.2.2 cxZeroPaper (.raised "timeout")
     (Or.inl ⟨"timeout", rfl⟩) (Or.inr rfl)⟩

/-- C5 counterexample: with no local corpus and no cache entry, a
successful API fetch whose cache write raises makes search_papers return
the error payload instead of the fetched result (the write happens inside
the function-wide try block). -/
theorem cache_write_error_counterexample :
    searchPapers cxSearchEnv none 100 =
      .errorPayload "Error searching papers: Disk full" ∧
    searchPapers cxSearchEnv none 100 ≠ .papers [cxSearchPaper] := by
  constructor
  · rfl
  · decide

/-- C5 amended: a raising cache write never propagates as an exception (the
call still returns a payload), but on the API path it replaces the fetched
result with an error payload; fetches served from the local corpus file or
from a valid cache entry perform no write and are unaffected. -/
theorem cache_write_error_degrades_result :
    (∀ (env : SearchEnv) (kw : Option String) (mr : Int) (ps : List PaperInfo),
      env.local_papers = none → env.cached_result = none → env.api_result = .ok ps →
      env.cache_write_error = none →
      searchPapers env kw mr = .papers (filterWithCap kw mr [] ps)) ∧
    (∀ (env : SearchEnv) (kw : Option String) (mr : Int) (ps : List PaperInfo) (msg : String),
      env.local_papers = none → env.cached_result = none → env.api_result = .ok ps →
      env.cache_write_error = some msg →
      searchPapers env kw mr = .errorPayload ("Error searching papers: " ++ msg)) ∧
    (∀ (env : SearchEnv) (kw : Option String) (mr : Int) (l : List PaperInfo),
      env.local_papers = some l →
      searchPapers env kw mr = .papers (filterWithCap kw mr [] l)) ∧
    (∀ (env : SearchEnv) (kw : Option String) (mr : Int) (cached : List PaperInfo),
      env.local_papers = none → env.cached_result = some cached →
      searchPapers env kw mr = .papers cached) := by
  refine ⟨?_, ?_, ?_, ?_⟩
  · intro env kw mr ps h1 h2 h3 h4
    simp only [searchPapers, h1, h2, h3, h4]
  · intro env kw mr ps msg h1 h2 h3 h4
    simp only [searchPapers, h1, h2, h3, h4]
  · intro env kw mr l h1
    simp only [searchPapers, h1]
  · intro env kw mr cached h1 h2
    simp only [searchPapers, h1, h2]

/-- C5 witness: the degradation conjunct applied to the concrete
environment of the counterexample. -/
theorem cache_write_error_degrades_result_witness :
    searchPapers cxSearchEnv none 100 =
      .errorPayload ("Error searching papers: " ++ "Disk full") :=
  cache_write_error_degrades_result.2.1 cxSearchEnv none 100 [cxSearchPaper]
    "Disk full" rfl rfl rfl rfl

theorem insertionSortStrings_perm_eq (l₁ l₂ : List String) (h : l₁.Perm l₂) :
    l₁.insertionSort (· ≤ ·) = l₂.insertionSort (· ≤ ·) :=
  List.eq_of_perm_of_sorted
    ((List.perm_insertionSort _ l₁).trans (h.trans (List.perm_insertionSort _ l₂).symm))
    (List.sorted_insertionSort _ l₁) (List.sorted_insertionSort _ l₂)

theorem synCache_lookup_append (cache : List (String × SynDict)) (key : String)
    (d : SynDict) (n m : Nat)
    (h : SynCache.lookup ⟨cache, m⟩ key = none) :
    SynCache.lookup ⟨cache ++ [(key, d)], n⟩ key = some d := by
  unfold SynCache.lookup at h ⊢
  induction cache with
  | nil => simp
  | cons kv rest ih =>
    simp only [List.cons_append, List.find?_cons] at h ⊢
    cases hkv : (kv.1 == key) with
    | true => simp only [hkv] at h; simp at h
    | false =>
      simp only [hkv] at h ⊢
      exact ih h

/-- C9: synonym generation is memoized per keyword set, order-independently:
a second call with any permutation of the same keyword list returns the
previously computed dictionary and leaves the cache state (including the
LLM call counter) untouched. -/
theorem synonym_generation_memoized :
    ∀ (oracle : String → Except String Json) (ints₁ ints₂ : List String)
      (st : SynCache), ints₂.Perm ints₁ →
      generateSynonyms oracle ints₂ (generateSynonyms oracle ints₁ st).2 =
        ((generateSynonyms oracle ints₁ st).1, (generateSynonyms oracle ints₁ st).2) ∧
      (generateSynonyms oracle ints₂ (generateSynonyms oracle ints₁ st).2).2.llmCalls =
        (generateSynonyms oracle ints₁ st).2.llmCalls := by
  intro oracle ints₁ ints₂ st hperm
  have hkey : sortedCacheKey ints₂ = sortedCacheKey ints₁ := by
    unfold sortedCacheKey
    rw [insertionSortStrings_perm_eq ints₂ ints₁ hperm]
  have main : generateSynonyms oracle ints₂ (generateSynonyms oracle ints₁ st).2 =
      ((generateSynonyms oracle ints₁ st).1, (generateSynonyms oracle ints₁ st).2) := by
    simp only [generateSynonyms, hkey]
    cases hl : SynCache.lookup st (sortedCacheKey ints₁) with
    | some cached => simp [hl]
    | none =>
      simp only [hl]
      rw [synCache_lookup_append st.cache _ _ _ st.llmCalls hl]
  exact ⟨main, by rw [main]⟩

/-- C9 witness: a concrete second call with the keywords in reverse order
hits the cache. -/
theorem synonym_generation_memoized_witness :
    generateSynonyms (fun _ => .error "offline") ["b", "a"]
        (generateSynonyms (fun _ => .error "offline") ["a", "b"] ⟨[], 0⟩).2 =
      ((generateSynonyms (fun _ => .error "offline") ["a", "b"] ⟨[], 0⟩).1,
       (generateSynonyms (fun _ => .error "offline") ["a", "b"] ⟨[], 0⟩).2) :=
  (synonym_generation_memoized (fun _ => .error "offline") ["a", "b"] ["b", "a"]
    ⟨[], 0⟩ (by decide)).1

theorem sorted_getLast_max (l : List (Nat × List FetchedRecord))
    (hs : l.Sorted checkpointLE) (last : Nat × List FetchedRecord)
    (hl : l.getLast? = some last) : ∀ e ∈ l, e.1 ≤ last.1 := by
  induction l with
  | nil => simp at hl
  | cons a t ih =>
    rw [List.sorted_cons] at hs
    intro e he
    cases t with
    | nil =>
      simp only [List.getLast?_singleton, Option.some.injEq] at hl
      subst hl
      simp only [List.mem_singleton] at he
      subst he
      exact le_refl _
    | cons b t2 =>
      rw [List.getLast?_cons_cons] at hl
      rcases List.mem_cons.mp he with rfl | he2
      · have hmem : last ∈ b :: t2 := List.mem_of_mem_getLast? hl
        exact hs.1 last hmem
      · exact ih hs.2 hl e he2

theorem fetchLoop_spec (oracle : String → String) (pids : List String) :
    ∀ subs : List Submission,
      fetchLoop oracle pids subs =
        ((subs.filter (fun s => !pids.contains s.id)).map
            (fun s => ⟨s.id, oracle s.id⟩),
         (subs.filter (fun s => !pids.contains s.id)).length) := by
  intro subs
  induction subs with
  | nil => rfl
  | cons s rest ih =>
    simp only [fetchLoop, ih, List.filter_cons]
    cases hc : pids.contains s.id <;> simp [hc]

theorem filter_neg_length {α : Type} (l : List α) (p : α → Bool) :
    (l.filter p).length + (l.filter (fun a => !p a)).length = l.length := by
  induction l with
  | nil => rfl
  | cons a rest ih =>
    rw [List.filter_cons, List.filter_cons]
    cases h : p a <;> simp [h] <;> omega

theorem filter_map_sub_id (subs : List Submission) (p : String → Bool) :
    (subs.filter (fun s => p s.id)).map (fun s => s.id) =
      (subs.map (fun s => s.id)).filter p := by
  induction subs with
  | nil => rfl
  | cons s rest ih =>
    rw [List.map_cons, List.filter_cons, List.filter_cons]
    cases h : p s.id <;> simp [h, ih]

theorem filter_mem_length (sids : List String) :
    ∀ pids : List String, sids.Nodup → pids.Nodup → (∀ x ∈ pids, x ∈ sids) →
      (sids.filter (fun x => pids.contains x)).length = pids.length := by
  induction sids with
  | nil =>
    intro pids _ _ hsub
    have : pids = [] := List.eq_nil_iff_forall_not_mem.mpr (fun a ha => by
      simpa using hsub a ha)
    simp [this]
  | cons x rest ih =>
    intro pids hs hp hsub
    rw [List.nodup_cons] at hs
    rw [List.filter_cons]
    by_cases hx : x ∈ pids
    · have hcx : pids.contains x = true := List.elem_eq_true_of_mem hx
      rw [if_pos hcx]
      have hcongr : rest.filter (fun y => pids.contains y) =
          rest.filter (fun y => (pids.erase x).contains y) := by
        apply List.filter_congr
        intro y hy
        have hyx : y ≠ x := fun heq => hs.1 (heq ▸ hy)
        by_cases hyp : y ∈ pids
        · have hmem : y ∈ pids.erase x := (List.mem_erase_of_ne hyx).mpr hyp
          have h1 : pids.contains y = true := List.elem_eq_true_of_mem hyp
          have h2 : (pids.erase x).contains y = true := List.elem_eq_true_of_mem hmem
          rw [h1, h2]
        · have hne : y ∉ pids.erase x := fun hc => hyp (List.mem_of_mem_erase hc)
          have h1 : pids.contains y = false := by
            cases hc : pids.contains y
            · rfl
            · exact absurd (List.mem_of_elem_eq_true hc) hyp
          have h2 : (pids.erase x).contains y = false := by
            cases hc : (pids.erase x).contains y
            · rfl
            · exact absurd (List.mem_of_elem_eq_true hc) hne
          rw [h1, h2]
      rw [hcongr, List.length_cons,
        ih (pids.erase x) hs.2 (hp.erase x) ?_]
      · have herase := List.length_erase_of_mem hx
        have hpos : 0 < pids.length := List.length_pos.mpr (by
          intro hnil; rw [hnil] at hx; simp at hx)
        omega
      · intro y hy
        have hyp : y ∈ pids := List.mem_of_mem_erase hy
        have hyx : y ≠ x := ((List.Nodup.mem_erase_iff hp).mp hy).1
        rcases List.mem_cons.mp (hsub y hyp) with h | h
        · exact absurd h hyx
        · exact h
    · have hcx : pids.contains x = false := by
        cases hc : pids.contains x
        · rfl
        · exact absurd (List.mem_of_elem_eq_true hc) hx
      rw [if_neg (by rw [hcx]; simp)]
      exact ih pids hs.2 hp (fun y hy => by
        rcases List.mem_cons.mp (hsub y hy) with h | h
        · exact absurd (h ▸ hy) hx
        · exact h)

/-- C4: resuming loads the most advanced checkpoint (the one tagged with
the highest count), processes exactly the submissions whose identifiers are
not in the checkpoint, and merges into a list with one record per distinct
submission identifier. -/
theorem checkpoint_resume_correct :
    (∀ (cps : List (Nat × List FetchedRecord)) (cnt : Nat)
        (ck : List FetchedRecord),
      pickLatestCheckpoint cps = some (cnt, ck) → ∀ e ∈ cps, e.1 ≤ cnt) ∧
    (∀ (oracle : String → String) (ck : List FetchedRecord)
        (subs : List Submission),
      (subs.map (fun s => s.id)).Nodup →
      (ck.map (fun r => r.id)).Nodup →
      (∀ r ∈ ck, r.id ∈ subs.map (fun s => s.id)) →
      ck.length < subs.length →
      (resumeFetch oracle ck subs).2 = subs.length - ck.length ∧
      ((resumeFetch oracle ck subs).1.map (fun r => r.id)).Nodup ∧
      (resumeFetch oracle ck subs).1.length = subs.length) := by
  constructor
  · intro cps cnt ck hpick e he
    have hs : (cps.insertionSort checkpointLE).Sorted checkpointLE :=
      List.sorted_insertionSort checkpointLE cps
    have hmem : e ∈ cps.insertionSort checkpointLE := by
      rw [List.mem_insertionSort]
      exact he
    exact sorted_getLast_max _ hs (cnt, ck) hpick e hmem
  · intro oracle ck subs hsub_nodup hck_nodup hsubset hlt
    have pids_def : ck.map (fun r => r.id) = ck.map (fun r => r.id) := rfl
    set pids := ck.map (fun r => r.id) with hpids
    have hKcount : ((subs.map (fun s => s.id)).filter
        (fun x => pids.contains x)).length = pids.length :=
      filter_mem_length (subs.map (fun s => s.id)) pids hsub_nodup hck_nodup
        (by
          intro x hx
          rw [hpids, List.mem_map] at hx
          obtain ⟨r, hr, hrid⟩ := hx
          exact hrid ▸ hsubset r hr)
    have hfilter_id : (subs.filter (fun s => pids.contains s.id)).length
        = pids.length := by
      have := filter_map_sub_id subs (fun x => pids.contains x)
      have hlen := congrArg List.length this
      rw [List.length_map] at hlen
      rw [hlen, hKcount]
    have hsplit := filter_neg_length subs (fun s => pids.contains s.id)
    have hnew_len : (subs.filter (fun s => !pids.contains s.id)).length
        = subs.length - ck.length := by
      have hplen : pids.length = ck.length := by
        rw [hpids, List.length_map]
      omega
    have hloop := fetchLoop_spec oracle pids subs
    refine ⟨?_, ?_, ?_⟩
    · simp only [resumeFetch, hloop]
      exact hnew_len
    · simp only [resumeFetch, hloop, List.map_append, List.map_map]
      have hids : ((subs.filter (fun s => !pids.contains s.id)).map
          ((fun r => r.id) ∘ (fun s => (⟨s.id, oracle s.id⟩ : FetchedRecord))))
          = (subs.map (fun s => s.id)).filter (fun x => !pids.contains x) := by
        have : ((fun (r : FetchedRecord) => r.id) ∘
            (fun (s : Submission) => (⟨s.id, oracle s.id⟩ : FetchedRecord)))
            = fun (s : Submission) => s.id := rfl
        rw [this]
        exact filter_map_sub_id subs (fun x => !pids.contains x)
      rw [hids]
      apply List.Nodup.append
      · exact hck_nodup
      · exact List.Nodup.filter _ hsub_nodup
      · intro a ha hafil
        rw [List.mem_filter] at hafil
        have : pids.contains a = true := List.elem_eq_true_of_mem ha
        rw [this] at hafil
        simp at hafil
    · simp only [resumeFetch, hloop, List.length_append, List.length_map]
      have hplen : pids.length = ck.length := by
        rw [hpids, List.length_map]
      omega

/-- C4 witness: a checkpoint holding one of two submissions resumes with
exactly one fetch and yields two uniquely-identified records. -/
theorem checkpoint_resume_correct_witness :
    (resumeFetch (fun i => i) [⟨"a", "pa"⟩] [⟨"a"⟩, ⟨"b"⟩]).2 = 2 - 1 ∧
    ((resumeFetch (fun i => i) [⟨"a", "pa"⟩] [⟨"a"⟩, ⟨"b"⟩]).1.map
      (fun r => r.id)).Nodup ∧
    (resumeFetch (fun i => i) [⟨"a", "pa"⟩] [⟨"a"⟩, ⟨"b"⟩]).1.length = 2 :=
  checkpoint_resume_correct.2 (fun i => i) [⟨"a", "pa"⟩] [⟨"a"⟩, ⟨"b"⟩]
    (by decide) (by decide) (by decide) (by decide)

/-- C10 witness: a paper whose metadata fetch raises is kept with score 0
and an error rationale. -/
theorem heuristic_evaluation_preserves_list_witness :
    evaluatePaperStep DEFAULT_SCORING_WEIGHTS {} [] (fun _ => .raised "boom") witnessPaper
      = errorEvaluatedPaper witnessPaper "boom" :=
  heuristic_evaluation_preserves_list.2.2.2.1 DEFAULT_SCORING_WEIGHTS {} []
    (fun _ => .raised "boom") witnessPaper "boom" rfl (Or.inl rfl)

end PaperReview
